import Mathlib

/-
Verification of the camera-monitoring bot core
(sources: src/tgalert3-halfpoop.py and src/tgalert2-stable.py).

Shallow embedding conventions:
- a decoded image is a structure holding its numpy shape (h, w) and a total
  pixel function (indices outside the shape are irrelevant to every claim);
- per-camera dictionaries (prev_frames, camera_status, mjpeg_streams, cameras)
  are functions from the camera id to Option values;
- imperative methods become pure functions threading the touched state;
- library primitives called by the code (cv2.cvtColor, cv2.GaussianBlur,
  cv2.dilate, cv2.erode, cv2.findContours, cv2.contourArea, cv2.boundingRect,
  cv2.rectangle) are modelled as executable Lean functions whose doc comments
  state the modelling choice; the claims only rely on properties these models
  share with the real primitives (shape preservation, determinism, pointwise
  zero behaviour, totality).
-/

namespace CameraSystem

/-- A grayscale image: numpy shape (h, w) plus a total pixel function.
Pixel values are intensities 0..255. -/
structure GrayImage where
  h : Nat
  w : Nat
  px : Nat → Nat → Nat

/-- A decoded BGR colour frame as produced by cv2.imdecode / stream.read. -/
structure Frame where
  h : Nat
  w : Nat
  px : Nat → Nat → Nat × Nat × Nat

/-- Model of the BGR-to-luma conversion performed per pixel by
cv2.cvtColor(frame, cv2.COLOR_BGR2GRAY): Y = 0.299 R + 0.587 G + 0.114 B,
in rounded fixed-point arithmetic. The pixel is a (B, G, R) triple. -/
def luma (p : Nat × Nat × Nat) : Nat :=
  (299 * p.2.2 + 587 * p.2.1 + 114 * p.1 + 500) / 1000

/-- Model of cv2.cvtColor(frame, cv2.COLOR_BGR2GRAY): same shape,
per-pixel luma. -/
def cvtColorGray (f : Frame) : GrayImage :=
  { h := f.h, w := f.w, px := fun i j => luma (f.px i j) }

/-- Clamp an integer index into the valid range [0, n-1] (replicated border
for window operations near the edge). -/
def clampIdx (n : Nat) (i : Int) : Nat :=
  if i < 0 then 0 else min i.toNat (n - 1)

/-- Read a pixel at possibly out-of-range integer coordinates, replicating
the border. -/
def sample (img : GrayImage) (i j : Int) : Nat :=
  img.px (clampIdx img.h i) (clampIdx img.w j)

/-- Window offsets -r..r used by the smoothing and morphology kernels. -/
def offs (r : Nat) : List Int :=
  (List.range (2 * r + 1)).map (fun k => (k : Int) - (r : Int))

/-- Model of cv2.GaussianBlur(gray, (21, 21), 0): a shape-preserving,
deterministic 21x21 normalized smoothing with replicated border.  The exact
Gaussian weights are irrelevant to every claim (which use only that the blur
is a function of the image preserving the shape), so the model averages the
21x21 window. -/
def gaussianBlur (img : GrayImage) : GrayImage :=
  { h := img.h, w := img.w,
    px := fun i j =>
      (((offs 10).map (fun di =>
          ((offs 10).map (fun dj =>
            sample img ((i : Int) + di) ((j : Int) + dj))).foldl (· + ·) 0)).foldl
        (· + ·) 0) / 441 }

/-- Absolute difference of two intensities. -/
def absdiffPx (x y : Nat) : Nat := max x y - min x y

/-- When cv2.absdiff raises cv2.error: the operand shapes differ and
neither operand qualifies as a scalar.  OpenCV's arithmetic ops promote a
1x1 single-channel Mat to a scalar and broadcast it, so a 1x1 operand
never raises against a larger one. -/
def absdiffRaises (a b : GrayImage) : Prop :=
  (a.h, a.w) ≠ (b.h, b.w) ∧ ¬ (a.h = 1 ∧ a.w = 1) ∧ ¬ (b.h = 1 ∧ b.w = 1)

instance (a b : GrayImage) : Decidable (absdiffRaises a b) := by
  unfold absdiffRaises
  infer_instance

/-- cv2.absdiff on grayscale images: with equal shapes, the pointwise
absolute difference; with a 1x1 operand, that operand is broadcast as a
scalar against the other and the result takes the other operand's shape.
The embedding of calculate_motion only calls it when absdiffRaises is
false (otherwise the real call raises and the except handler runs), so the
value of the last branch matters only when b is the 1x1 operand. -/
def absdiff (a b : GrayImage) : GrayImage :=
  if (a.h, a.w) = (b.h, b.w) then
    { h := a.h, w := a.w, px := fun i j => absdiffPx (a.px i j) (b.px i j) }
  else if a.h = 1 ∧ a.w = 1 then
    { h := b.h, w := b.w, px := fun i j => absdiffPx (a.px 0 0) (b.px i j) }
  else
    { h := a.h, w := a.w, px := fun i j => absdiffPx (a.px i j) (b.px 0 0) }

/-- cv2.threshold(diff, 25, 255, cv2.THRESH_BINARY): pixels strictly above
25 become 255, all others 0. -/
def thresholdBin (img : GrayImage) : GrayImage :=
  { h := img.h, w := img.w,
    px := fun i j => if 25 < img.px i j then 255 else 0 }

/-- cv2.dilate with the 5x5 ones kernel: maximum over the 5x5 window
(replicated border). -/
def dilate (img : GrayImage) : GrayImage :=
  { h := img.h, w := img.w,
    px := fun i j =>
      ((offs 2).map (fun di =>
        ((offs 2).map (fun dj =>
          sample img ((i : Int) + di) ((j : Int) + dj))).foldl max 0)).foldl max 0 }

/-- cv2.erode with the 5x5 ones kernel: minimum over the 5x5 window
(replicated border); 255 is the neutral start since all intensities are
at most 255. -/
def erode (img : GrayImage) : GrayImage :=
  { h := img.h, w := img.w,
    px := fun i j =>
      ((offs 2).map (fun di =>
        ((offs 2).map (fun dj =>
          sample img ((i : Int) + di) ((j : Int) + dj))).foldl min 255)).foldl
        min 255 }

/-- The in-range coordinates holding a nonzero pixel of a binary image. -/
def nonzeroPixels (img : GrayImage) : List (Nat × Nat) :=
  (List.range img.h).flatMap (fun i =>
    ((List.range img.w).filter (fun j => img.px i j ≠ 0)).map (fun j => (i, j)))

/-- 8-connectivity of two pixel coordinates. -/
def adjacent (p q : Nat × Nat) : Bool :=
  decide (p ≠ q) &&
    decide (max p.1 q.1 - min p.1 q.1 ≤ 1) &&
    decide (max p.2 q.2 - min p.2 q.2 ≤ 1)

/-- One closure round of connected-component growth inside the point set. -/
def componentStep (pts : List (Nat × Nat)) (comp : List (Nat × Nat)) :
    List (Nat × Nat) :=
  comp ++ pts.filter (fun q => !comp.contains q && comp.any (fun p => adjacent p q))

/-- The connected component of p inside pts, grown to fixpoint (pts.length
rounds suffice). -/
def componentOf (pts : List (Nat × Nat)) (p : Nat × Nat) : List (Nat × Nat) :=
  (componentStep pts)^[pts.length] [p]

/-- Model of cv2.findContours(thresh, cv2.RETR_EXTERNAL,
cv2.CHAIN_APPROX_SIMPLE): the connected components of nonzero pixels, each
represented by its pixel set.  The claims rely only on the component list of
an all-zero image being empty and on totality. -/
def findContours (img : GrayImage) : List (List (Nat × Nat)) :=
  let pts := nonzeroPixels img
  pts.foldl
    (fun acc p => if acc.any (fun c => c.contains p) then acc
                  else acc ++ [componentOf pts p]) []

/-- Model of cv2.contourArea: the pixel count of the component (a monotone
proxy for the enclosed area; no claim depends on the exact area formula). -/
def contourArea (c : List (Nat × Nat)) : Nat :=
  c.length

/-- cv2.boundingRect of a contour: (x, y, w, h) with x the least column,
y the least row. -/
def boundingRect (c : List (Nat × Nat)) : Nat × Nat × Nat × Nat :=
  match c with
  | [] => (0, 0, 0, 0)
  | q :: rest =>
    let xs := (q :: rest).map (fun p => p.2)
    let ys := (q :: rest).map (fun p => p.1)
    let x := xs.foldl min q.2
    let y := ys.foldl min q.1
    let xmax := xs.foldl max q.2
    let ymax := ys.foldl max q.1
    (x, y, xmax - x + 1, ymax - y + 1)

/-- Model of cv2.rectangle(img, (x, y), (x+w, y+h), color, thickness):
recolour the border band of the axis-aligned rectangle. -/
def drawRectOn (f : Frame) (color : Nat × Nat × Nat) (t : Nat)
    (x y w h : Nat) : Frame :=
  { f with px := fun i j =>
      if x ≤ j ∧ j ≤ x + w ∧ y ≤ i ∧ i ≤ y + h ∧
         (j < x + t ∨ x + w < j + t ∨ i < y + t ∨ y + h < i + t)
      then color else f.px i j }

/-- The mutable detection settings read by calculate_motion
(self.config fields of tgalert3-halfpoop.py). -/
structure DetectorConfig where
  min_contour_area : Nat
  draw_contours : Bool
  contour_color : Nat × Nat × Nat
  contour_thickness : Nat

/-- The contour loop of calculate_motion (tgalert3-halfpoop.py lines
171-180): skip contours below min_contour_area; any surviving contour sets
motion_detected and, when draw_contours is enabled, draws its bounding
rectangle onto the processed frame. -/
def contourLoop (cfg : DetectorConfig) (cs : List (List (Nat × Nat)))
    (processed : Frame) : Bool × Frame :=
  cs.foldl
    (fun acc c =>
      if contourArea c < cfg.min_contour_area then acc
      else
        (true,
         if cfg.draw_contours then
           let r := boundingRect c
           drawRectOn acc.2 cfg.contour_color cfg.contour_thickness
             r.1 r.2.1 r.2.2.1 r.2.2.2
         else acc.2))
    (false, processed)

/-- frame.copy(): a fresh buffer with the same contents; at the value level
the contents are unchanged. -/
def copyFrame (f : Frame) : Frame := f

/-- The per-camera reference frames self.prev_frames. -/
abbrev PrevFrames := String → Option GrayImage

/-- Embedding of CameraSystem.calculate_motion (tgalert3-halfpoop.py lines
150-187).  Control flow mirrors the source: grayscale + blur; first frame
stores the reference and reports no motion; the absdiffRaises test models
the cv2.error raised by cv2.absdiff on mismatched non-broadcastable
shapes, which the except handler turns into (False, frame) with no state
change; otherwise diff (broadcasting a 1x1 operand as cv2 does), binarize,
dilate twice, erode once, extract contours, run the contour loop on a copy
of the frame, store the new reference, and return. -/
def calculate_motion (cfg : DetectorConfig) (prev : PrevFrames)
    (camId : String) (frame : Frame) : (Bool × Frame) × PrevFrames :=
  let gray := gaussianBlur (cvtColorGray frame)
  match prev camId with
  | none => ((false, frame), fun k => if k = camId then some gray else prev k)
  | some prev_gray =>
    if absdiffRaises prev_gray gray then
      ((false, frame), prev)
    else
      let frame_diff := absdiff prev_gray gray
      let thresh0 := thresholdBin frame_diff
      let thresh := erode (dilate (dilate thresh0))
      let contours := findContours thresh
      let mp := contourLoop cfg contours (copyFrame frame)
      ((mp.1, mp.2), fun k => if k = camId then some gray else prev k)

/-
Buffer-level refinement of calculate_motion, making numpy buffer identity
and in-place mutation explicit.  Frames live in a heap of buffers addressed
by Nat; frame.copy() allocates a fresh buffer; cv2.rectangle mutates the
copy in place (collapsed into one final write of the loop result).  Used to
state that the caller's input buffer is never written.
-/

/-- A heap of frame buffers: contents per buffer id, plus the next fresh id
(every allocated buffer has id below next). -/
structure BufHeap where
  mem : Nat → Frame
  next : Nat

/-- Allocate a fresh buffer holding f (models frame.copy()). -/
def allocBuf (bh : BufHeap) (f : Frame) : Nat × BufHeap :=
  (bh.next,
   { mem := fun b => if b = bh.next then f else bh.mem b, next := bh.next + 1 })

/-- Overwrite the contents of buffer b (models in-place drawing). -/
def writeBuf (bh : BufHeap) (b : Nat) (f : Frame) : BufHeap :=
  { bh with mem := fun x => if x = b then f else bh.mem x }

/-- Embedding of CameraSystem.calculate_motion (tgalert3-halfpoop.py lines
150-187) at the buffer level: same control flow as calculate_motion —
including the 1x1 scalar broadcast of cv2.absdiff — with the frame passed
as a buffer reference.  processed_frame = frame.copy() allocates a fresh
buffer and the cv2.rectangle calls of the contour loop mutate only that
buffer; the first-frame and exception paths return the input reference
untouched. -/
def calculate_motion_heap (cfg : DetectorConfig) (prev : PrevFrames)
    (camId : String) (bh : BufHeap) (fref : Nat) :
    ((Bool × Nat) × PrevFrames) × BufHeap :=
  let frame := bh.mem fref
  let gray := gaussianBlur (cvtColorGray frame)
  match prev camId with
  | none =>
    (((false, fref), fun k => if k = camId then some gray else prev k), bh)
  | some prev_gray =>
    if absdiffRaises prev_gray gray then
      (((false, fref), prev), bh)
    else
      let frame_diff := absdiff prev_gray gray
      let thresh0 := thresholdBin frame_diff
      let thresh := erode (dilate (dilate thresh0))
      let contours := findContours thresh
      let alloc := allocBuf bh (copyFrame frame)
      let mp := contourLoop cfg contours (copyFrame frame)
      let bh2 := writeBuf alloc.2 alloc.1 mp.2
      (((mp.1, alloc.1), fun k => if k = camId then some gray else prev k), bh2)

/-
Alert dispatcher (CameraSystem.send_alert, tgalert3-halfpoop.py lines
189-203; structurally identical cooldown/update logic in
tgalert2-stable.py lines 122-143).
-/

/-- Outcome of the external delivery collaborator (bot.send_photo together
with the frame encoding inside the same try block): success, or an
exception caught by the handler. -/
inductive DeliveryResult where
  | ok
  | failure
deriving DecidableEq

/-- The dispatcher state: self.last_notification, a single global
last-alert timestamp (seconds, initialised to 0). -/
structure AlertState where
  last_notification : Int
deriving DecidableEq

/-- Embedding of CameraSystem.send_alert: if now - last_notification <
cooldown, return without attempting delivery and without touching the
state; otherwise attempt delivery, and only on success set
last_notification := now.  The result is (delivered, attempted) together
with the new state; time.time() is the explicit parameter now. -/
def send_alert (cooldown : Int) (st : AlertState) (now : Int)
    (deliver : DeliveryResult) : (Bool × Bool) × AlertState :=
  if now - st.last_notification < cooldown then
    ((false, false), st)
  else
    match deliver with
    | .ok => ((true, true), { last_notification := now })
    | .failure => ((false, true), st)

/-- Run a sequence of motion events (timestamp, delivery outcome) through
send_alert, counting delivered alerts. -/
def runAlerts (cooldown : Int) (st : AlertState)
    (events : List (Int × DeliveryResult)) : Nat × AlertState :=
  events.foldl
    (fun acc ev =>
      let r := send_alert cooldown acc.2 ev.1 ev.2
      ((if r.1.1 then acc.1 + 1 else acc.1), r.2))
    (0, st)

/-
Registry and settings of the stable revision (tgalert2-stable.py):
cameras, camera_status, prev_frames (this revision stores the raw colour
frame as the reference), the in-memory threshold, and the threshold as
persisted by save_config (the disk copy of the configuration, modelled by
the field the claims inspect).
-/

/-- One camera's configuration entry (config["cameras"][name]). -/
structure CamConfig where
  url : String
  user : String
  password : String
deriving DecidableEq

/-- The mutable system state of tgalert2-stable.py touched by the registry
and settings operations. -/
structure SystemV2 where
  cameras : String → Option CamConfig
  camera_status : String → Option Bool
  prev_frames : String → Option Frame
  threshold : Int
  disk_threshold : Int

/-- save_config(config): persist the current configuration; modelled as
copying the in-memory threshold to the disk copy (the persisted field the
claims inspect). -/
def save_config (st : SystemV2) : SystemV2 :=
  { st with disk_threshold := st.threshold }

/-- Embedding of CameraSystem.set_sensitivity (tgalert2-stable.py lines
151-161) on an already-parsed integer: accept, store and persist values in
[1000, 100000]; reject everything else unchanged. -/
def set_sensitivity (st : SystemV2) (v : Int) : Bool × SystemV2 :=
  if 1000 ≤ v ∧ v ≤ 100000 then
    (true, save_config { st with threshold := v })
  else
    (false, st)

/-- Embedding of the remove_camera handler's state changes
(tgalert2-stable.py lines 342-348): if the id is configured, delete its
configuration entry, persist, and delete its status entry if present;
otherwise change nothing.  prev_frames is not touched by the source. -/
def remove_camera (st : SystemV2) (camId : String) : SystemV2 :=
  if (st.cameras camId).isSome then
    let st1 := save_config
      { st with cameras := fun k => if k = camId then none else st.cameras k }
    if (st1.camera_status camId).isSome then
      { st1 with
        camera_status := fun k => if k = camId then none else st1.camera_status k }
    else st1
  else st

/-
Frame source multiplexer of tgalert3-halfpoop.py: process_camera dispatches
on is_mjpeg_url between the snapshot pull (process_jpeg_camera) and the
persistent stream (process_mjpeg_camera).  The cv2.VideoCapture world is an
oracle giving the outcome of each external step; the events performed on
stream handles are recorded in a trace.
-/

/-- Outcome of a stream.read() call. -/
inductive ReadResult where
  | ok (f : Frame)
  | fail

/-- A stored cv2.VideoCapture handle: an identity plus its isOpened flag. -/
structure MHandle where
  hid : Nat
  opened : Bool
deriving DecidableEq

/-- External outcomes for one fetch: what reading the existing handle would
yield, whether a newly constructed capture reports isOpened, and what its
first read would yield. -/
structure StreamWorld where
  read_existing : ReadResult
  open_ok : Bool
  read_new : ReadResult

/-- Observable events on stream handles during one fetch. -/
inductive StreamEv where
  | readExisting
  | releaseExisting
  | openNew
  | readNew
  | storeNew
deriving DecidableEq, BEq

/-- The per-camera handle table self.mjpeg_streams. -/
abbrev Streams := String → Option MHandle

/-- The reconnect block of process_mjpeg_camera (tgalert3-halfpoop.py lines
120-129): construct one cv2.VideoCapture; if it is open and its first read
succeeds, store it and return the frame; otherwise return None without
storing anything.  newId is the identity of the freshly constructed
capture. -/
def open_attempt (streams : Streams) (camId : String) (w : StreamWorld)
    (newId : Nat) (evs : List StreamEv) :
    (Option Frame × Streams) × List StreamEv :=
  if w.open_ok then
    match w.read_new with
    | .ok f =>
      ((some f, fun k => if k = camId then some ⟨newId, true⟩ else streams k),
       evs ++ [.openNew, .readNew, .storeNew])
    | .fail => ((none, streams), evs ++ [.openNew, .readNew])
  else
    ((none, streams), evs ++ [.openNew])

/-- Embedding of CameraSystem.process_mjpeg_camera (tgalert3-halfpoop.py
lines 109-129): if a stored handle exists and is open, read it; on success
return the frame; on failure release and delete the handle and fall through
to the single reconnect attempt; with no usable handle, go straight to the
reconnect attempt. -/
def process_mjpeg_camera (streams : Streams) (camId : String)
    (w : StreamWorld) (newId : Nat) :
    (Option Frame × Streams) × List StreamEv :=
  match streams camId with
  | some h =>
    if h.opened then
      match w.read_existing with
      | .ok f => ((some f, streams), [.readExisting])
      | .fail =>
        open_attempt (fun k => if k = camId then none else streams k) camId w
          newId [.readExisting, .releaseExisting]
    else open_attempt streams camId w newId []
  | none => open_attempt streams camId w newId []

/-- Whether the needle list is an initial segment of the hay list. -/
def startsWith : List Char → List Char → Bool
  | [], _ => true
  | _ :: _, [] => false
  | a :: as, b :: bs => a == b && startsWith as bs

/-- Whether the needle occurs contiguously anywhere in the hay
(the Python substring test needle in hay). -/
def hasSub (needle : List Char) : List Char → Bool
  | [] => startsWith needle []
  | b :: bs => startsWith needle (b :: bs) || hasSub needle bs

/-- Embedding of CameraSystem.is_mjpeg_url (tgalert3-halfpoop.py lines
131-133) on the path component produced by urlparse: the lowered path
contains mjpg or mjpeg. -/
def is_mjpeg_url (path : String) : Bool :=
  hasSub "mjpg".toList (path.toList.map Char.toLower) ||
    hasSub "mjpeg".toList (path.toList.map Char.toLower)

/-- Embedding of CameraSystem.process_camera (tgalert3-halfpoop.py lines
85-93): dispatch on the endpoint classification; the snapshot path
(process_jpeg_camera) is stateless and returns whatever the one-shot
HTTP GET + decode yields (the snapshot oracle), touching no stream
state. -/
def process_camera (path : String) (streams : Streams) (camId : String)
    (w : StreamWorld) (snapshot : Option Frame) (newId : Nat) :
    (Option Frame × Streams) × List StreamEv :=
  if is_mjpeg_url path then process_mjpeg_camera streams camId w newId
  else ((snapshot, streams), [])

/-
Concrete instances used by witnesses and counterexamples.
-/

/-- Detection settings with the shipped defaults relevant to the claims. -/
def cfgA : DetectorConfig := ⟨1000, true, (0, 255, 0), 2⟩

/-- A 1x1 frame. -/
def frameA : Frame := ⟨1, 1, fun _ _ => (5, 5, 5)⟩

/-- A 2x2 frame. -/
def frameB : Frame := ⟨2, 2, fun _ _ => (7, 7, 7)⟩

/-- A stored 1x1 grayscale reference. -/
def refA : GrayImage := ⟨1, 1, fun _ _ => 0⟩

/-- The blurred grayscale of frameB, a shape-matching reference for it. -/
def refC : GrayImage := gaussianBlur (cvtColorGray frameB)

/-- No camera has a reference yet. -/
def prevEmpty : PrevFrames := fun _ => none

/-- Camera cam1 holds the 1x1 reference refA. -/
def prevA : PrevFrames := fun k => if k = "cam1" then some refA else none

/-- Camera cam1 holds the shape-matching reference refC. -/
def prevC : PrevFrames := fun k => if k = "cam1" then some refC else none

/-- A stored 2x2 grayscale reference (larger than 1x1, so not
scalar-broadcastable). -/
def refD : GrayImage := ⟨2, 2, fun _ _ => 0⟩

/-- A 3x3 frame, shape-incompatible with refD and not broadcastable. -/
def frameC : Frame := ⟨3, 3, fun _ _ => (9, 9, 9)⟩

/-- Camera cam1 holds the 2x2 reference refD. -/
def prevD : PrevFrames := fun k => if k = "cam1" then some refD else none

/-- A stable-revision state with one camera c that has a status entry and a
stored reference frame. -/
def sysA : SystemV2 :=
  ⟨fun k => if k = "c" then some ⟨"http://cam.local/img.jpg", "", ""⟩ else none,
   fun k => if k = "c" then some true else none,
   fun k => if k = "c" then some frameA else none,
   30000, 30000⟩

/-- A handle table holding one open handle for camera cam. -/
def streamsA : Streams := fun k => if k = "cam" then some ⟨0, true⟩ else none

/-- A world in which the existing read fails and the reconnect cannot
open. -/
def worldFail : StreamWorld := ⟨.fail, false, .fail⟩

/-- A one-buffer heap holding frameB in buffer 0. -/
def bhA : BufHeap := ⟨fun _ => frameB, 1⟩

/-
Helper lemmas: branch behaviour of calculate_motion, and the all-zero
pipeline facts behind the identical-frames claim.
-/

/-- Branch lemma: with no stored reference the call returns (false, frame)
and records the blurred grayscale as the new reference. -/
lemma calc_motion_none (cfg : DetectorConfig) (prev : PrevFrames)
    (camId : String) (frame : Frame) (h : prev camId = none) :
    calculate_motion cfg prev camId frame =
      ((false, frame),
       fun k => if k = camId then some (gaussianBlur (cvtColorGray frame))
                else prev k) := by
  simp only [calculate_motion, h]

/-- Branch lemma: with a stored reference against which cv2.absdiff raises
(shapes differ, neither operand 1x1), the exception handler yields
(false, frame) and leaves the state untouched. -/
lemma calc_motion_raise (cfg : DetectorConfig) (prev : PrevFrames)
    (camId : String) (frame : Frame) (pg : GrayImage)
    (h : prev camId = some pg)
    (hr : absdiffRaises pg (gaussianBlur (cvtColorGray frame))) :
    calculate_motion cfg prev camId frame = ((false, frame), prev) := by
  simp only [calculate_motion, h]
  rw [if_pos hr]

/-- Branch lemma: with a stored reference against which cv2.absdiff does
not raise (equal shapes, or a 1x1 operand broadcast as a scalar), the full
pipeline runs and the reference is overwritten. -/
lemma calc_motion_run (cfg : DetectorConfig) (prev : PrevFrames)
    (camId : String) (frame : Frame) (pg : GrayImage)
    (h : prev camId = some pg)
    (hr : ¬ absdiffRaises pg (gaussianBlur (cvtColorGray frame))) :
    calculate_motion cfg prev camId frame =
      (contourLoop cfg
        (findContours (erode (dilate (dilate (thresholdBin
          (absdiff pg (gaussianBlur (cvtColorGray frame))))))))
        (copyFrame frame),
       fun k => if k = camId then some (gaussianBlur (cvtColorGray frame))
                else prev k) := by
  simp only [calculate_motion, h]
  rw [if_neg hr]

/-- Comparing any image with itself never raises (the shapes agree). -/
lemma absdiffRaises_self_false (g : GrayImage) : ¬ absdiffRaises g g :=
  fun hr => hr.1 rfl

/-- An image whose every pixel is zero. -/
def AllZero (img : GrayImage) : Prop := ∀ i j, img.px i j = 0

lemma absdiff_self_allZero (g : GrayImage) : AllZero (absdiff g g) := by
  intro i j
  simp [absdiff, absdiffPx]

lemma thresholdBin_allZero {img : GrayImage} (h : AllZero img) :
    AllZero (thresholdBin img) := by
  intro i j
  simp [thresholdBin, h i j]

lemma sample_allZero {img : GrayImage} (h : AllZero img) (i j : Int) :
    sample img i j = 0 := h _ _

lemma foldl_max_zero : ∀ l : List Nat, (∀ x ∈ l, x = 0) → l.foldl max 0 = 0
  | [], _ => rfl
  | a :: t, h => by
    have ha : a = 0 := h a (by simp)
    subst ha
    rw [List.foldl_cons]
    exact foldl_max_zero t (fun x hx => h x (by simp [hx]))

lemma foldl_min_zero_init :
    ∀ l : List Nat, (∀ x ∈ l, x = 0) → l.foldl min 0 = 0
  | [], _ => rfl
  | a :: t, h => by
    have ha : a = 0 := h a (by simp)
    subst ha
    rw [List.foldl_cons]
    exact foldl_min_zero_init t (fun x hx => h x (by simp [hx]))

lemma foldl_min_zero (l : List Nat) (a : Nat)
    (h : ∀ x ∈ l, x = 0) (hne : l ≠ []) : l.foldl min a = 0 := by
  cases l with
  | nil => exact absurd rfl hne
  | cons b t =>
    have hb : b = 0 := h b (by simp)
    subst hb
    rw [List.foldl_cons, Nat.min_zero]
    exact foldl_min_zero_init t (fun x hx => h x (by simp [hx]))

lemma offs_ne_nil (r : Nat) : offs r ≠ [] := by
  simp [offs, List.range_succ]

lemma dilate_allZero {img : GrayImage} (h : AllZero img) :
    AllZero (dilate img) := by
  intro i j
  apply foldl_max_zero
  intro x hx
  rcases List.mem_map.1 hx with ⟨di, _, rfl⟩
  apply foldl_max_zero
  intro y hy
  rcases List.mem_map.1 hy with ⟨dj, _, rfl⟩
  exact sample_allZero h _ _

lemma erode_allZero {img : GrayImage} (h : AllZero img) :
    AllZero (erode img) := by
  intro i j
  apply foldl_min_zero
  · intro x hx
    rcases List.mem_map.1 hx with ⟨di, _, rfl⟩
    apply foldl_min_zero
    · intro y hy
      rcases List.mem_map.1 hy with ⟨dj, _, rfl⟩
      exact sample_allZero h _ _
    · intro hc
      exact offs_ne_nil 2 (List.map_eq_nil_iff.1 hc)
  · intro hc
    exact offs_ne_nil 2 (List.map_eq_nil_iff.1 hc)

lemma nonzeroPixels_allZero {img : GrayImage} (h : AllZero img) :
    nonzeroPixels img = [] := by
  have hrow : ∀ i,
      ((List.range img.w).filter (fun j => decide (img.px i j ≠ 0))).map
        (fun j => (i, j)) = ([] : List (Nat × Nat)) := by
    intro i
    have hf : (List.range img.w).filter (fun j => decide (img.px i j ≠ 0)) = [] := by
      apply List.filter_eq_nil_iff.2
      intro j hj
      simp [h i j]
    rw [hf]
    rfl
  simp only [nonzeroPixels]
  rw [List.flatMap_eq_nil_iff.2]
  intro i _hi
  exact hrow i

lemma findContours_allZero {img : GrayImage} (h : AllZero img) :
    findContours img = [] := by
  simp only [findContours, nonzeroPixels_allZero h]
  rfl

/-- The motion flag computed from comparing a blurred grayscale frame with
itself is false: the difference image is identically zero, so no contour
exists. -/
lemma motion_false_selfdiff (cfg : DetectorConfig) (g : GrayImage)
    (f : Frame) :
    (contourLoop cfg
      (findContours (erode (dilate (dilate (thresholdBin (absdiff g g))))))
      f).1 = false := by
  rw [findContours_allZero
    (erode_allZero (dilate_allZero (dilate_allZero
      (thresholdBin_allZero (absdiff_self_allZero g)))))]
  rfl

/-
Claim theorems.
-/

/-- C1: for every camera with no stored reference frame, calculate_motion
returns motion=false together with the input frame, stores the blurred
grayscale version of that frame as the camera's reference, and touches no
other camera's reference. -/
theorem calculate_motion_first_frame_spec
    (cfg : DetectorConfig) (prev : PrevFrames) (camId : String)
    (frame : Frame) (h : prev camId = none) :
    (calculate_motion cfg prev camId frame).1 = (false, frame) ∧
    (calculate_motion cfg prev camId frame).2 camId =
      some (gaussianBlur (cvtColorGray frame)) ∧
    (∀ k, k ≠ camId → (calculate_motion cfg prev camId frame).2 k = prev k) := by
  rw [calc_motion_none cfg prev camId frame h]
  refine ⟨rfl, by simp, ?_⟩
  intro k hk
  simp [hk]

/-- Witness for C1: an empty reference table and a concrete 1x1 frame. -/
theorem calculate_motion_first_frame_spec_witness :
    prevEmpty "cam1" = none ∧
    (calculate_motion cfgA prevEmpty "cam1" frameA).1 = (false, frameA) ∧
    (calculate_motion cfgA prevEmpty "cam1" frameA).2 "cam1" =
      some (gaussianBlur (cvtColorGray frameA)) :=
  ⟨rfl,
   (calculate_motion_first_frame_spec cfgA prevEmpty "cam1" frameA rfl).1,
   (calculate_motion_first_frame_spec cfgA prevEmpty "cam1" frameA rfl).2.1⟩

/-- C2: an alert attempt inside the cooldown window is skipped: it returns
false, never invokes delivery, and leaves the timestamp unchanged; with
cooldown 30, motion events 10 seconds apart deliver exactly one alert and
events 31 seconds apart deliver two. -/
theorem send_alert_cooldown_spec :
    (∀ (cooldown : Int) (st : AlertState) (now : Int) (d : DeliveryResult),
      now - st.last_notification < cooldown →
      send_alert cooldown st now d = ((false, false), st)) ∧
    (runAlerts 30 ⟨0⟩ [(100, .ok), (110, .ok)]).1 = 1 ∧
    (runAlerts 30 ⟨0⟩ [(100, .ok), (131, .ok)]).1 = 2 := by
  refine ⟨?_, by decide, by decide⟩
  intro cooldown st now d h
  simp [send_alert, h]

/-- Witness for C2: cooldown 30, last alert at 0, new attempt at 10. -/
theorem send_alert_cooldown_spec_witness :
    ((10 : Int) - (AlertState.mk 0).last_notification < 30) ∧
    send_alert 30 ⟨0⟩ 10 .ok = ((false, false), ⟨0⟩) :=
  ⟨by decide, send_alert_cooldown_spec.1 30 ⟨0⟩ 10 .ok (by decide)⟩

/-- C3: a failed delivery returns false and leaves the last-alert timestamp
unchanged, and the state can only change through a successful delivery that
returned true. -/
theorem send_alert_failure_spec (cooldown : Int) (st : AlertState) (now : Int) :
    ((send_alert cooldown st now .failure).1.1 = false ∧
     (send_alert cooldown st now .failure).2 = st) ∧
    (∀ d, (send_alert cooldown st now d).2 ≠ st →
      d = .ok ∧ (send_alert cooldown st now d).1.1 = true) := by
  constructor
  · unfold send_alert
    split <;> simp
  · intro d hne
    by_cases hc : now - st.last_notification < cooldown
    · exact absurd (by simp [send_alert, hc]) hne
    · cases d with
      | ok => exact ⟨rfl, by simp [send_alert, hc]⟩
      | failure => exact absurd (by simp [send_alert, hc]) hne

/-- Witness for C3: cooldown 30, last alert at 0, attempt at 50; the inner
implication is discharged at the successful delivery that moves the
timestamp to 50. -/
theorem send_alert_failure_spec_witness :
    (send_alert 30 ⟨0⟩ 50 .failure).1.1 = false ∧
    (send_alert 30 ⟨0⟩ 50 .failure).2 = (⟨0⟩ : AlertState) ∧
    (send_alert 30 ⟨0⟩ 50 .ok).2 ≠ (⟨0⟩ : AlertState) ∧
    (send_alert 30 ⟨0⟩ 50 .ok).1.1 = true :=
  ⟨(send_alert_failure_spec 30 ⟨0⟩ 50).1.1,
   (send_alert_failure_spec 30 ⟨0⟩ 50).1.2,
   by decide,
   ((send_alert_failure_spec 30 ⟨0⟩ 50).2 .ok (by decide)).2⟩

/-- C4 counterexample: with a 2x2 stored reference and a 3x3 frame — a
mismatch on which cv2.absdiff genuinely raises, since neither operand is a
broadcastable 1x1 — the code reports no motion but does NOT reset the
camera to the no-reference state: the old reference entry is still present
after the call. -/
theorem calculate_motion_no_reset_cex :
    (calculate_motion cfgA prevD "cam1" frameC).1 = (false, frameC) ∧
    (calculate_motion cfgA prevD "cam1" frameC).2 "cam1" ≠ none := by
  constructor
  · rfl
  · show some refD ≠ none
    simp

/-- C4 as amended: when the stored reference's dimensions differ from the
current blurred grayscale's dimensions and neither of the two is a 1x1
image (cv2 broadcasts a 1x1 operand as a scalar instead of raising), the
call does not raise: it returns motion=false with the input frame and
leaves the whole reference table — in particular the old reference —
unchanged, rather than resetting to the no-reference state. -/
theorem calculate_motion_mismatch_spec
    (cfg : DetectorConfig) (prev : PrevFrames) (camId : String)
    (frame : Frame) (pg : GrayImage) (h : prev camId = some pg)
    (hs : (pg.h, pg.w) ≠ ((gaussianBlur (cvtColorGray frame)).h,
                          (gaussianBlur (cvtColorGray frame)).w))
    (hp : ¬ (pg.h = 1 ∧ pg.w = 1))
    (hg : ¬ ((gaussianBlur (cvtColorGray frame)).h = 1 ∧
             (gaussianBlur (cvtColorGray frame)).w = 1)) :
    calculate_motion cfg prev camId frame = ((false, frame), prev) :=
  calc_motion_raise cfg prev camId frame pg h ⟨hs, hp, hg⟩

/-- Witness for C4: a 2x2 stored reference against a 3x3 frame, a
non-broadcastable mismatch. -/
theorem calculate_motion_mismatch_spec_witness :
    prevD "cam1" = some refD ∧
    absdiffRaises refD (gaussianBlur (cvtColorGray frameC)) ∧
    calculate_motion cfgA prevD "cam1" frameC = ((false, frameC), prevD) :=
  ⟨rfl, by decide,
   calculate_motion_mismatch_spec cfgA prevD "cam1" frameC refD rfl
     (by decide) (by decide) (by decide)⟩

/-- C5 counterexample: after a call on which cv2.absdiff raises (a 2x2
stored reference against a 3x3 frame, neither broadcastable) the stored
reference is NOT the blurred grayscale of the frame just processed — the
old reference is retained — so the reference is not overwritten on every
call. -/
theorem calculate_motion_overwrite_cex :
    (calculate_motion cfgA prevD "cam1" frameC).2 "cam1" ≠
      some (gaussianBlur (cvtColorGray frameC)) := by
  show some refD ≠ some (gaussianBlur (cvtColorGray frameC))
  intro hcontra
  exact absurd (congrArg GrayImage.h (Option.some.inj hcontra)) (by decide)

/-- C5 as amended: on every call that does not hit the internal-error path
— first-frame calls and calls where cv2.absdiff accepts the stored
reference against the current blurred grayscale (equal shapes, or a 1x1
operand broadcast as a scalar) — the stored reference afterwards equals
the blurred grayscale of the processed frame, regardless of the motion
outcome; the genuine-error path (a non-broadcastable shape mismatch)
instead leaves the reference table unchanged. -/
theorem calculate_motion_overwrite_spec
    (cfg : DetectorConfig) (prev : PrevFrames) (camId : String)
    (frame : Frame)
    (h : prev camId = none ∨
      (∃ pg, prev camId = some pg ∧
        ¬ absdiffRaises pg (gaussianBlur (cvtColorGray frame)))) :
    (calculate_motion cfg prev camId frame).2 camId =
      some (gaussianBlur (cvtColorGray frame)) := by
  rcases h with h | ⟨pg, hsome, hr⟩
  · rw [calc_motion_none cfg prev camId frame h]
    simp
  · rw [calc_motion_run cfg prev camId frame pg hsome hr]
    simp

/-- Witness for C5 at the scalar-broadcast input: a 1x1 stored reference
against a 2x2 frame does not raise (cv2 broadcasts the 1x1 operand), so
the full pipeline runs and the reference is overwritten with the blurred
grayscale of the processed frame. -/
theorem calculate_motion_overwrite_spec_witness :
    prevA "cam1" = some refA ∧
    (¬ absdiffRaises refA (gaussianBlur (cvtColorGray frameB))) ∧
    (calculate_motion cfgA prevA "cam1" frameB).2 "cam1" =
      some (gaussianBlur (cvtColorGray frameB)) :=
  ⟨rfl, by decide,
   calculate_motion_overwrite_spec cfgA prevA "cam1" frameB
     (Or.inr ⟨refA, rfl, by decide⟩)⟩

/-- C6 counterexample: removing camera c deletes its configuration and its
status entry but leaves its stored reference frame behind, so the
remove-together invariant is broken for ReferenceFrame. -/
theorem remove_camera_reference_cex :
    (remove_camera sysA "c").cameras "c" = none ∧
    (remove_camera sysA "c").camera_status "c" = none ∧
    (remove_camera sysA "c").prev_frames "c" ≠ none := by
  refine ⟨rfl, rfl, ?_⟩
  show some frameA ≠ none
  simp

/-- C6 as amended: remove_camera deletes the camera's configuration entry
and its reachability status entry, is a state no-op when the id is absent,
and touches no other camera — but it leaves the reference-frame table
entirely unchanged, so a removed camera's ReferenceFrame entry survives
(stream handles do not exist in the revision providing removal). -/
theorem remove_camera_spec (st : SystemV2) (camId : String) :
    (st.cameras camId = none → remove_camera st camId = st) ∧
    ((st.cameras camId).isSome →
      (remove_camera st camId).cameras camId = none ∧
      (remove_camera st camId).camera_status camId = none ∧
      (∀ k, k ≠ camId →
        (remove_camera st camId).cameras k = st.cameras k ∧
        (remove_camera st camId).camera_status k = st.camera_status k)) ∧
    (remove_camera st camId).prev_frames = st.prev_frames := by
  refine ⟨?_, ?_, ?_⟩
  · intro h
    simp [remove_camera, h]
  · intro h
    by_cases hs : (st.camera_status camId).isSome
    · refine ⟨by simp [remove_camera, save_config, h, hs], ?_, ?_⟩
      · simp [remove_camera, save_config, h, hs]
      · intro k hk
        constructor <;> simp [remove_camera, save_config, h, hs, hk]
    · refine ⟨by simp [remove_camera, save_config, h, hs], ?_, ?_⟩
      · rw [Option.not_isSome_iff_eq_none] at hs
        simp [remove_camera, save_config, h, hs]
      · intro k hk
        constructor <;> simp [remove_camera, save_config, h, hs, hk]
  · by_cases h : (st.cameras camId).isSome
    · by_cases hs : (st.camera_status camId).isSome
      · simp [remove_camera, save_config, h, hs]
      · simp [remove_camera, save_config, h, hs]
    · simp [remove_camera, h]

/-- Witness for C6: the concrete one-camera state, removing the present
camera c and the absent camera zz. -/
theorem remove_camera_spec_witness :
    (sysA.cameras "c").isSome = true ∧
    (remove_camera sysA "c").cameras "c" = none ∧
    (remove_camera sysA "c").camera_status "c" = none ∧
    (remove_camera sysA "c").prev_frames = sysA.prev_frames ∧
    sysA.cameras "zz" = none ∧
    remove_camera sysA "zz" = sysA :=
  ⟨by decide,
   ((remove_camera_spec sysA "c").2.1 (by decide)).1,
   ((remove_camera_spec sysA "c").2.1 (by decide)).2.1,
   (remove_camera_spec sysA "c").2.2,
   by decide,
   (remove_camera_spec sysA "zz").1 (by decide)⟩

/-- C7: on a streaming-classified endpoint, when the stored handle's read
fails the handle is released and removed and exactly one reconnect (one
new connection construction) happens inside the fetch; if the new
connection does not open or its first read fails, the fetch returns no
frame and stores no handle for the camera; if it opens and reads, its
frame is returned and the fresh handle is stored. -/
theorem process_mjpeg_reconnect_spec
    (path : String) (streams : Streams) (camId : String) (w : StreamWorld)
    (snapshot : Option Frame) (newId : Nat) (h : MHandle)
    (hurl : is_mjpeg_url path = true)
    (hstream : streams camId = some h)
    (hopen : h.opened = true)
    (hread : w.read_existing = .fail) :
    ((process_camera path streams camId w snapshot newId).2.count .openNew = 1 ∧
     (process_camera path streams camId w snapshot newId).2.count
       .releaseExisting = 1) ∧
    ((w.open_ok = false ∨ w.read_new = .fail) →
      (process_camera path streams camId w snapshot newId).1.1 = none ∧
      (process_camera path streams camId w snapshot newId).1.2 camId = none) ∧
    (∀ f, w.open_ok = true → w.read_new = .ok f →
      (process_camera path streams camId w snapshot newId).1.1 = some f ∧
      (process_camera path streams camId w snapshot newId).1.2 camId =
        some ⟨newId, true⟩) := by
  obtain ⟨re, wopen, rn⟩ := w
  simp only at hread
  subst hread
  have hpc : process_camera path streams camId ⟨.fail, wopen, rn⟩ snapshot newId =
      open_attempt (fun k => if k = camId then none else streams k) camId
        ⟨.fail, wopen, rn⟩ newId [.readExisting, .releaseExisting] := by
    simp [process_camera, hurl, process_mjpeg_camera, hstream, hopen]
  rw [hpc]
  cases wopen
  · refine ⟨by simp [open_attempt]; decide, ?_, ?_⟩
    · intro _
      constructor
      · simp [open_attempt]
      · simp [open_attempt]
    · intro f hfalse _
      exact absurd hfalse (by simp)
  · cases rn with
    | fail =>
      refine ⟨by simp [open_attempt]; decide, ?_, ?_⟩
      · intro _
        constructor
        · simp [open_attempt]
        · simp [open_attempt]
      · intro f _ hok
        exact absurd hok (by simp)
    | ok g =>
      refine ⟨by simp [open_attempt]; decide, ?_, ?_⟩
      · intro hbad
        rcases hbad with hbad | hbad
        · exact absurd hbad (by simp)
        · exact absurd hbad (by simp)
      · intro f _ hok
        have hg : g = f := by
          injection hok
        subst hg
        constructor
        · simp [open_attempt]
        · simp [open_attempt]

/-- Witness for C7: concrete mjpg endpoint, a stored open handle whose
read fails, and a reconnect that cannot open. -/
theorem process_mjpeg_reconnect_spec_witness :
    is_mjpeg_url "/video.mjpg" = true ∧
    streamsA "cam" = some ⟨0, true⟩ ∧
    worldFail.read_existing = .fail ∧
    (process_camera "/video.mjpg" streamsA "cam" worldFail none 7).2.count
      .openNew = 1 ∧
    (process_camera "/video.mjpg" streamsA "cam" worldFail none 7).1.1 =
      none ∧
    (process_camera "/video.mjpg" streamsA "cam" worldFail none 7).1.2
      "cam" = none :=
  ⟨by decide, rfl, rfl,
   (process_mjpeg_reconnect_spec "/video.mjpg" streamsA "cam" worldFail none
     7 ⟨0, true⟩ (by decide) rfl rfl rfl).1.1,
   ((process_mjpeg_reconnect_spec "/video.mjpg" streamsA "cam" worldFail none
     7 ⟨0, true⟩ (by decide) rfl rfl rfl).2.1 (Or.inl rfl)).1,
   ((process_mjpeg_reconnect_spec "/video.mjpg" streamsA "cam" worldFail none
     7 ⟨0, true⟩ (by decide) rfl rfl rfl).2.1 (Or.inl rfl)).2⟩

/-- C8: set_sensitivity rejects any value outside [1000, 100000] and leaves
both the in-memory threshold and the persisted configuration unchanged;
any value inside the range is accepted, stored, and persisted, with the
rest of the state untouched. -/
theorem set_sensitivity_spec (st : SystemV2) (v : Int) :
    (¬ (1000 ≤ v ∧ v ≤ 100000) → set_sensitivity st v = (false, st)) ∧
    (1000 ≤ v → v ≤ 100000 →
      (set_sensitivity st v).1 = true ∧
      (set_sensitivity st v).2.threshold = v ∧
      (set_sensitivity st v).2.disk_threshold = v ∧
      (set_sensitivity st v).2.cameras = st.cameras ∧
      (set_sensitivity st v).2.camera_status = st.camera_status ∧
      (set_sensitivity st v).2.prev_frames = st.prev_frames) := by
  constructor
  · intro h
    simp [set_sensitivity, h]
  · intro h1 h2
    simp [set_sensitivity, save_config, h1, h2]

/-- Witness for C8: set_sensitivity(500) is rejected and changes nothing;
set_sensitivity(5000) is accepted, stored, and persisted. -/
theorem set_sensitivity_spec_witness :
    (¬ ((1000 : Int) ≤ 500 ∧ (500 : Int) ≤ 100000)) ∧
    set_sensitivity sysA 500 = (false, sysA) ∧
    (set_sensitivity sysA 5000).1 = true ∧
    (set_sensitivity sysA 5000).2.threshold = 5000 ∧
    (set_sensitivity sysA 5000).2.disk_threshold = 5000 :=
  ⟨by decide,
   (set_sensitivity_spec sysA 500).1 (by decide),
   ((set_sensitivity_spec sysA 5000).2 (by decide) (by decide)).1,
   ((set_sensitivity_spec sysA 5000).2 (by decide) (by decide)).2.1,
   ((set_sensitivity_spec sysA 5000).2 (by decide) (by decide)).2.2.1⟩

/-- C9: feeding the same frame twice consecutively for one camera makes
the second call report motion=false, whatever the configuration and the
prior state: the second comparison is of a blurred grayscale with itself
(or hits the unchanged genuine-raise path, which also reports no
motion). -/
theorem calculate_motion_identical_frames_spec
    (cfg : DetectorConfig) (prev : PrevFrames) (camId : String)
    (frame : Frame) :
    (calculate_motion cfg
      (calculate_motion cfg prev camId frame).2 camId frame).1.1 = false := by
  cases hp : prev camId with
  | none =>
    rw [calc_motion_none cfg prev camId frame hp]
    have h2 : (fun k =>
        if k = camId then some (gaussianBlur (cvtColorGray frame))
        else prev k) camId = some (gaussianBlur (cvtColorGray frame)) := by
      simp
    rw [calc_motion_run cfg _ camId frame _ h2 (absdiffRaises_self_false _)]
    exact motion_false_selfdiff cfg _ _
  | some pg =>
    by_cases hr : absdiffRaises pg (gaussianBlur (cvtColorGray frame))
    · rw [calc_motion_raise cfg prev camId frame pg hp hr]
      rw [calc_motion_raise cfg prev camId frame pg hp hr]
    · rw [calc_motion_run cfg prev camId frame pg hp hr]
      have h2 : (fun k =>
          if k = camId then some (gaussianBlur (cvtColorGray frame))
          else prev k) camId = some (gaussianBlur (cvtColorGray frame)) := by
        simp
      rw [calc_motion_run cfg _ camId frame _ h2 (absdiffRaises_self_false _)]
      exact motion_false_selfdiff cfg _ _

/-- C10: at the buffer level, calculate_motion never writes any buffer that
existed before the call — in particular the caller's input frame buffer is
unchanged — and the returned frame reference is either the untouched input
buffer or the freshly allocated copy (which is distinct from the input). -/
theorem calculate_motion_heap_no_mutation_spec
    (cfg : DetectorConfig) (prev : PrevFrames) (camId : String)
    (bh : BufHeap) (fref : Nat) (hf : fref < bh.next) :
    (∀ b, b < bh.next →
      (calculate_motion_heap cfg prev camId bh fref).2.mem b = bh.mem b) ∧
    ((calculate_motion_heap cfg prev camId bh fref).1.1.2 = fref ∨
     ((calculate_motion_heap cfg prev camId bh fref).1.1.2 = bh.next ∧
      (calculate_motion_heap cfg prev camId bh fref).1.1.2 ≠ fref)) := by
  cases hp : prev camId with
  | none =>
    constructor
    · intro b _
      simp [calculate_motion_heap, hp]
    · left
      simp [calculate_motion_heap, hp]
  | some pg =>
    by_cases hr : absdiffRaises pg (gaussianBlur (cvtColorGray (bh.mem fref)))
    · constructor
      · intro b _
        simp [calculate_motion_heap, hp, hr]
      · left
        simp [calculate_motion_heap, hp, hr]
    · constructor
      · intro b hb
        have hbne : b ≠ bh.next := Nat.ne_of_lt hb
        simp [calculate_motion_heap, hp, hr, writeBuf, allocBuf, hbne]
      · right
        have hne : bh.next ≠ fref := (Nat.ne_of_lt hf).symm
        simp [calculate_motion_heap, hp, hr, allocBuf, hne]

/-- Witness for C10: a one-buffer heap whose only frame is processed
through the full detection path. -/
theorem calculate_motion_heap_no_mutation_spec_witness :
    (0 : Nat) < bhA.next ∧
    (calculate_motion_heap cfgA prevC "cam1" bhA 0).2.mem 0 = bhA.mem 0 ∧
    ((calculate_motion_heap cfgA prevC "cam1" bhA 0).1.1.2 = 0 ∨
     ((calculate_motion_heap cfgA prevC "cam1" bhA 0).1.1.2 = bhA.next ∧
      (calculate_motion_heap cfgA prevC "cam1" bhA 0).1.1.2 ≠ 0)) :=
  ⟨by decide,
   (calculate_motion_heap_no_mutation_spec cfgA prevC "cam1" bhA 0
     (by decide)).1 0 (by decide),
   (calculate_motion_heap_no_mutation_spec cfgA prevC "cam1" bhA 0
     (by decide)).2⟩

end CameraSystem
